import Mathlib

/-!
# Verification of the SEU-Auth authentication orchestration engine

Shallow embedding of the SEU-Auth repository's core components:

* `src/seu_auth/utils/parse.py` — the response classifiers,
* `src/seu_auth/utils/crypto.py` — public-key normalization,
* `src/seu_auth/utils/misc.py` — the public-key hash used as cache index,
* `src/seu_auth/auth_manager.py` — the login state machine (`SEUAuthManager`),
  the JSON-file session store, and the `login` entry point,
* `src/seu_auth/auth_client.py` — cookie-jar handling of `verify_tgt`.

External collaborators (the HTTP transport, the RSA library, `hashlib.md5`,
`urllib.parse.unquote`, the captcha/SMS callbacks, and the pluggable storage
protocol) are modelled as oracle inputs: each of their calls is resolved by
an environment value, with a dedicated constructor for the call raising an
exception.  This matches the repository's design, which treats them as
injected collaborators behind narrow interfaces.
-/

namespace SeuAuth

/-! ## Python-string primitives

The classifiers work on Python `str` values via `in` (substring test),
`str.lower`, `str.strip`, `str.replace`, `str.startswith`/`endswith`.
We model Python strings as Lean `String` (both are sequences of Unicode
code points) and give each primitive an executable counterpart.
-/

/-- Contiguous-sublist test on character lists: `listInfixB n h` holds iff
`n` occurs in `h` as a block of consecutive elements. -/
def listInfixB (n : List Char) : List Char → Bool
  | [] => n.isEmpty
  | c :: tl => n.isPrefixOf (c :: tl) || listInfixB n tl

/-- Python's `needle in haystack` substring test (contiguous subsequence of
code points). -/
def strIn (needle haystack : String) : Bool :=
  listInfixB needle.toList haystack.toList

/-- Python's `str.lower`.  The strings inspected by the classifiers are
Chinese phrases and ASCII markers, on which per-character lowercasing
agrees with Python's. -/
def pyLower (s : String) : String :=
  String.mk (s.toList.map Char.toLower)

/-- Whitespace stripped by Python's `str.strip()`. -/
def isPyStripWS (c : Char) : Bool :=
  c = ' ' || c = '\t' || c = '\n' || c = '\r' || c = '\x0b' || c = '\x0c'

/-- Python's `str.strip()`: drop whitespace from both ends. -/
def pyStrip (s : String) : String :=
  String.mk (((s.toList.dropWhile isPyStripWS).reverse.dropWhile isPyStripWS).reverse)

/-- Python's `s.startswith(pre)`. -/
def pyStartsWith (s pre : String) : Bool :=
  pre.toList.isPrefixOf s.toList

/-- Python's `s.endswith(suf)`. -/
def pyEndsWith (s suf : String) : Bool :=
  suf.toList.isSuffixOf s.toList

/-- Truthiness of a Python `Optional[str]`: `None` and `""` are falsy. -/
def optTruthy : Option String → Bool
  | none => false
  | some s => s ≠ ""

/-! ## Server response payloads

The JSON payloads returned by the transport are dynamic dictionaries; the
classifiers read a fixed set of keys with `resp.get(key, default)`.  We model
a payload as a record of optional fields (a missing key is `none`), which is
exactly the part of the dictionary the classifiers can observe. -/

structure Resp where
  code : Option Int := none
  success : Option Bool := none
  info : Option String := none
  tgtCookie : Option String := none
  redirectUrl : Option String := none
  maxAge : Option Int := none
  needStage2Validation : Option Bool := none
  publicKey : Option String := none
  deriving Repr, DecidableEq

/-- The empty payload `{}`. -/
def emptyResp : Resp := {}

/-! ## Response classifiers (`utils/parse.py`) -/

inductive GetCipherKeyStatus
  | SUCCESS | REUSE | FAILED
  deriving Repr, DecidableEq

inductive CasLoginStatus
  | SUCCESS | STAGE2_REQUIRED | BAD_CREDENTIALS | BAD_CAPTCHA
  | BAD_SMS_CODE | CIPHER_ERROR | FAILED
  deriving Repr, DecidableEq

inductive SendStage2CodeStatus
  | SUCCESS | CIPHER_ERROR | RATE_LIMITED | FAILED
  deriving Repr, DecidableEq

/-- `parse_verify_tgt_resp`: valid iff the status code is 2xx and the success
flag is set; the redirect URL is passed through unchanged. -/
def parse_verify_tgt_resp (resp : Resp) : Bool × Option String :=
  let code := resp.code.getD 0
  let success := resp.success.getD false
  let redirect_url := resp.redirectUrl
  let valid := (200 ≤ code && code < 300) && success
  (valid, redirect_url)

/-- `parse_need_captcha_resp`: a captcha is required unless the response is
2xx and its message contains "不需要". -/
def parse_need_captcha_resp (resp : Resp) : Bool :=
  let code := resp.code.getD 0
  let info := pyLower (resp.info.getD "")
  !((200 ≤ code && code < 300) && strIn "不需要" info)

/-- `parse_get_cipher_key_resp`: failure unless 2xx, success flag set and the
`publicKey` field present (`is not None` in the source); "reuse" in the
message distinguishes `REUSE` from `SUCCESS`. -/
def parse_get_cipher_key_resp (resp : Resp) :
    GetCipherKeyStatus × Option String :=
  let code := resp.code.getD 0
  let success := resp.success.getD false
  let info := pyLower (resp.info.getD "")
  let public_key := resp.publicKey
  if !((200 ≤ code && code < 300) && success && public_key.isSome) then
    (.FAILED, none)
  else if strIn "reuse" info then
    (.REUSE, public_key)
  else
    (.SUCCESS, public_key)

/-- `parse_cas_login_resp`.  `unquote` abstracts `urllib.parse.unquote`,
which is Python standard-library code external to the repository. -/
def parse_cas_login_resp (unquote : String → String) (resp : Resp) :
    CasLoginStatus × Int × Option String × Option String :=
  let code := resp.code.getD 0
  let success := resp.success.getD false
  let info := pyLower (resp.info.getD "")
  let tgt_cookie := resp.tgtCookie
  -- 1. successful login
  if (200 ≤ code && code < 300) && success && optTruthy tgt_cookie then
    let redirect_url :=
      match resp.redirectUrl with
      | some u => if u ≠ "" then some (unquote u) else some u
      | none => none
    (.SUCCESS, resp.maxAge.getD 0, tgt_cookie, redirect_url)
  -- 2. second-factor verification required
  else if code == 502 || resp.needStage2Validation.getD false ||
      (strIn "设备" info && strIn "验证" info) then
    (.STAGE2_REQUIRED, 0, none, none)
  -- 3. bad credentials
  else if code == 402 || (strIn "用户名" info || strIn "密码" info) then
    (.BAD_CREDENTIALS, 0, none, none)
  -- 4. bad captcha
  else if (code == 4000 || code == 4001) && strIn "验证码" info then
    (.BAD_CAPTCHA, 0, none, none)
  -- 5. bad SMS code
  else if code == 503 && strIn "验证码" info then
    (.BAD_SMS_CODE, 0, none, none)
  -- 6. CHIPER_UID-related errors
  else if strIn "过期" info || strIn "失效" info || strIn "刷新" info then
    (.CIPHER_ERROR, 0, none, none)
  -- 7. anything else
  else
    (.FAILED, 0, none, none)

/-- `re.search(r"(\d{11})", info)`: the leftmost run of 11 consecutive digit
characters, if any. -/
def findPhone : List Char → Option String
  | [] => none
  | c :: tl =>
    let cand := (c :: tl).take 11
    if cand.length == 11 && cand.all Char.isDigit then
      some (String.mk cand)
    else
      findPhone tl

/-- `parse_send_stage2_code_resp`. -/
def parse_send_stage2_code_resp (resp : Resp) :
    SendStage2CodeStatus × Option String :=
  let code := resp.code.getD 0
  let success := resp.success.getD false
  let info := pyLower (resp.info.getD "")
  if (200 ≤ code && code < 300) && success then
    (.SUCCESS, findPhone info.toList)
  else if code == 5002 || (strIn "过期" info || strIn "失效" info || strIn "刷新" info) then
    (.CIPHER_ERROR, none)
  else if code == 5001 || (strIn "过多" info || strIn "重试" info) then
    (.RATE_LIMITED, none)
  else
    (.FAILED, none)

/-- `parse_cas_logout_resp`: success iff 2xx and success flag, or the message
contains both "not" and "log". -/
def parse_cas_logout_resp (resp : Resp) : Bool :=
  let code := resp.code.getD 0
  let success := resp.success.getD false
  let info := pyLower (resp.info.getD "")
  ((200 ≤ code && code < 300) && success) || (strIn "not" info && strIn "log" info)

/-! ## Credential cipher (`utils/crypto.py`) -/

/-- The Base64URL → Base64 step of `_normalize_pem_public_key`:
`pub_key.replace("-", "+").replace("_", "/")` (single-character
replacements, hence a character map). -/
def b64urlToB64 (s : String) : String :=
  String.mk (s.toList.map (fun c => if c = '-' then '+' else if c = '_' then '/' else c))

def pemBeginMarker : String := "-----BEGIN PUBLIC KEY-----"

def pemEndMarker : String := "-----END PUBLIC KEY-----"

/-- `_normalize_pem_public_key`: strip, translate the Base64URL alphabet,
then wrap in the PEM markers unless the (already translated) string starts
and ends with them. -/
def normalize_pem_public_key (pub_key : String) : String :=
  let pk := pyStrip pub_key
  let pub_key_base64 := b64urlToB64 pk
  let pem1 :=
    if !(pyStartsWith pub_key_base64 pemBeginMarker) then
      pemBeginMarker ++ "\n" ++ pub_key_base64
    else pub_key_base64
  if !(pyEndsWith pub_key_base64 pemEndMarker) then
    pem1 ++ "\n" ++ pemEndMarker
  else pem1

/-! ## Public-key hash (`utils/misc.py`)

`hash_pub_key` strips `"\n"`, `" "` and `"\r"` from the key and hashes the
result with `hashlib.md5` (Python standard library, external to the
repository); the digest function is therefore an oracle parameter. -/

/-- The cleaning chain `key.replace("\n", "").replace(" ", "").replace("\r", "")`
(replacing a single character by the empty string removes every occurrence). -/
def cleanPubKey (key : String) : String :=
  String.mk (((key.toList.filter (· ≠ '\n')).filter (· ≠ ' ')).filter (· ≠ '\r'))

/-- `hash_pub_key`, parameterized over the md5-hex digest oracle. -/
def hash_pub_key (md5hex : String → String) (key : String) : String :=
  md5hex (cleanPubKey key)

/-! ## Session store (`_JsonFileAuthStorage`)

The store keeps `{username → {"value": tgt, "expires_at": t|null}}` under the
`tgt_map` key.  We model the JSON dictionary as an association list with
dictionary semantics (`dictGet` = first match, `dictInsert` replaces,
`dictErase` = `pop`), and the wall clock `time.time()` as an explicit `Int`
parameter. -/

def dictGet {α : Type} : List (String × α) → String → Option α
  | [], _ => none
  | p :: tl, k => if p.1 = k then some p.2 else dictGet tl k

def dictInsert {α : Type} : List (String × α) → String → α → List (String × α)
  | [], k, v => [(k, v)]
  | p :: tl, k, v => if p.1 = k then (k, v) :: tl else p :: dictInsert tl k v

def dictErase {α : Type} : List (String × α) → String → List (String × α)
  | [], _ => []
  | p :: tl, k => if p.1 = k then dictErase tl k else p :: dictErase tl k

/-- One entry of the `tgt_map`. -/
structure TgtEntry where
  value : String
  expires_at : Option Int
  deriving Repr, DecidableEq

/-- The persisted data relevant to TGT handling. -/
structure StorageData where
  tgt_map : List (String × TgtEntry) := []
  deriving Repr, DecidableEq

/-- `_JsonFileAuthStorage.load_tgt` at wall-clock time `now`: returns the
stored value when there is no expiry or the expiry is in the future;
otherwise evicts the stale entry (and persists the eviction) and reports
absence. -/
def load_tgt (now : Int) (d : StorageData) (username : String) :
    Option String × StorageData :=
  match dictGet d.tgt_map username with
  | none => (none, d)
  | some entry =>
    match entry.expires_at with
    | none => (some entry.value, d)
    | some expires_at =>
      if now < expires_at then (some entry.value, d)
      else (none, { d with tgt_map := dictErase d.tgt_map username })

/-- `_JsonFileAuthStorage.save_tgt` at wall-clock time `now`: a non-positive
`max_age` stores a never-expiring entry, a positive one stores an absolute
expiry `now + max_age`. -/
def save_tgt (now : Int) (d : StorageData) (tgt : String) (max_age : Int)
    (username : String) : StorageData :=
  let expires_at := if max_age > 0 then some (now + max_age) else none
  { d with tgt_map := dictInsert d.tgt_map username ⟨tgt, expires_at⟩ }

/-! ## Collaborator calls

A call into a collaborator (transport, storage, callback) either returns a
value or raises an exception. -/

inductive CallRes (α : Type)
  | ret (a : α)
  | exn
  deriving Repr, DecidableEq

def CallRes.isRet {α : Type} : CallRes α → Bool
  | .ret _ => true
  | .exn => false

/-! ## Cookie jar and `SEUAuthClient.verify_tgt` (`auth_client.py`)

`httpx.Cookies` is modelled as an association list with unique keys:
`set` replaces the entry for a name, `clear` empties the jar, `update`
sets each pair of a snapshot dictionary in turn, and `dict(cookies)` is
the identity on the model (a dictionary snapshot of the jar's pairs). -/

def CookieJar : Type := List (String × String)

def jarGet (jar : CookieJar) (k : String) : Option String :=
  dictGet jar k

/-- `cookies.set(k, v)`. -/
def jarSet (jar : CookieJar) (k v : String) : CookieJar :=
  dictInsert jar k v

/-- `cookies.clear()`. -/
def jarClear : CookieJar := []

/-- `cookies.update(d)`: set every pair of the dictionary `d` in turn. -/
def jarUpdate (jar : CookieJar) (d : List (String × String)) : CookieJar :=
  d.foldl (fun j p => jarSet j p.1 p.2) jar

/-- `SEUAuthClient.verify_tgt` with an explicit `tgt` argument.  The POST
request is an oracle: from the jar it is given, it either raises or returns
the payload together with the jar as mutated by the exchange (the server may
set cookies).  The source snapshots `dict(self.client.cookies)` first, swaps
the token in, performs the request, and in a `finally` block clears the jar
and re-applies the snapshot. -/
def verify_tgt_with_token
    (request : CookieJar → CallRes (Resp × CookieJar))
    (jar : CookieJar) (tgt : String) : CookieJar × CallRes Resp :=
  let current_cookies := jar
  let jar1 := jarSet jar "TGT" tgt
  match request jar1 with
  | .ret (data, _jar2) => (jarUpdate jarClear current_cookies, .ret data)
  | .exn => (jarUpdate jarClear current_cookies, .exn)

/-! ## The login state machine (`SEUAuthManager`)

The manager's collaborators (the HTTP client, the `AuthStorage` protocol,
the RSA library and the captcha/SMS callbacks) are injected; we resolve each
of their calls through a per-iteration environment record.  The cookie jar is
mutated by every HTTP exchange, so jar reads inside a step (the `CHIPER_UID`
lookup) are environment inputs as well.  Context mutations performed before a
raising call persist, exactly as Python's in-place `ctx` mutation does, so
each step handler threads the context through both normal and exceptional
returns. -/

inductive AuthStep
  | INIT | CHECK_LOCAL_SESSION | FETCH_PUBLIC_KEY | HANDLE_CAPTCHA
  | PERFORM_LOGIN | HANDLE_STAGE2_2FA | SUCCESS | FAILED
  deriving Repr, DecidableEq

/-- `_AuthContext`. -/
structure AuthContext where
  username : String
  raw_password : String
  public_key : Option String := none
  encrypted_password : Option String := none
  captcha_code : String := ""
  sms_code : String := ""
  encrypted_sms_code : Option String := none
  phone : String := ""
  service : String := ""
  step_retry_count : Nat := 0
  flow_retry_count : Nat := 0
  deriving Repr, DecidableEq

/-- The manager-level state a step can touch besides the context:
`SEUAuthManager._redirect_url`. -/
structure FsmState where
  ctx : AuthContext
  redirect_url : Option String := none
  deriving Repr, DecidableEq

/-- Result of one step handler: the threaded state, the next step or an
escaped exception, and the seconds slept via `asyncio.sleep` (only the
rate-limited branch of the stage-2 handler sleeps). -/
structure StepOut where
  st : FsmState
  res : Except Unit AuthStep
  sleep : Option Nat := none
  deriving Repr

/-- Oracle for one invocation of `_step_fetch_public_key`. -/
structure FetchKeyEnv where
  getCipherKeyR : CallRes Resp := .exn
  chiperUidCookie : Option String := none
  saveCipherUidR : CallRes Unit := .ret ()
  getCachedUidR : CallRes (Option String) := .ret none
  rsaPassword : Option String := none
  rsaSms : Option String := none
  deriving Repr, DecidableEq

/-- Oracle for one invocation of `_step_handle_captcha`. -/
structure CaptchaEnv where
  needCaptchaR : CallRes Resp := .exn
  getCaptchaR : CallRes (List Nat) := .exn
  captchaCbR : CallRes String := .exn
  deriving Repr, DecidableEq

/-- Oracle for one invocation of `_step_perform_login`. -/
structure LoginStepEnv where
  casLoginR : CallRes Resp := .exn
  saveTgtR : CallRes Unit := .ret ()
  deriving Repr, DecidableEq

/-- Oracle for one invocation of `_step_handle_stage2`. -/
structure Stage2Env where
  sendCodeR : CallRes Resp := .exn
  smsCbR : CallRes String := .exn
  deriving Repr, DecidableEq

/-- Steps 3–4 of `_step_fetch_public_key`: encrypt the password (and the SMS
code when one is pending) with the freshly obtained key; an empty/absent
ciphertext retries the key fetch, otherwise the counter is reset and the
flow advances to the captcha step. -/
def encryptAndAdvance (e : FetchKeyEnv) (st : FsmState) : StepOut :=
  let ctx := { st.ctx with encrypted_password := e.rsaPassword }
  let ctx :=
    if ctx.sms_code ≠ "" then { ctx with encrypted_sms_code := e.rsaSms } else ctx
  if !optTruthy ctx.encrypted_password ||
      (ctx.sms_code ≠ "" && !optTruthy ctx.encrypted_sms_code) then
    { st := { st with ctx := { ctx with step_retry_count := ctx.step_retry_count + 1 } },
      res := .ok .FETCH_PUBLIC_KEY }
  else
    { st := { st with ctx := { ctx with step_retry_count := 0 } },
      res := .ok .HANDLE_CAPTCHA }

/-- `_step_fetch_public_key`. -/
def stepFetchPublicKey (e : FetchKeyEnv) (st : FsmState) : StepOut :=
  match e.getCipherKeyR with
  | .exn => { st, res := .error () }
  | .ret data =>
    let (status, pub_key) := parse_get_cipher_key_resp data
    if status = .FAILED then
      { st := { st with ctx := { st.ctx with
          step_retry_count := st.ctx.step_retry_count + 1 } },
        res := .ok .FETCH_PUBLIC_KEY }
    else
      let st := { st with ctx := { st.ctx with public_key := pub_key } }
      if optTruthy e.chiperUidCookie then
        match e.saveCipherUidR with
        | .exn => { st, res := .error () }
        | .ret _ => encryptAndAdvance e st
      else
        match e.getCachedUidR with
        | .exn => { st, res := .error () }
        | .ret cached =>
          if optTruthy cached then
            -- load_cookies({"CHIPER_UID": cached}): jar effect only
            encryptAndAdvance e st
          else
            -- cookies.clear(): jar effect only
            { st := { st with ctx := { st.ctx with
                step_retry_count := st.ctx.step_retry_count + 1 } },
              res := .ok .FETCH_PUBLIC_KEY }

/-- `_step_handle_captcha`. -/
def stepHandleCaptcha (e : CaptchaEnv) (st : FsmState) : StepOut :=
  match e.needCaptchaR with
  | .exn => { st, res := .error () }
  | .ret need_data =>
    if !parse_need_captcha_resp need_data then
      { st := { st with ctx := { st.ctx with captcha_code := "", step_retry_count := 0 } },
        res := .ok .PERFORM_LOGIN }
    else
      match e.getCaptchaR with
      | .exn => { st, res := .error () }
      | .ret img_data =>
        if img_data.isEmpty then
          { st := { st with ctx := { st.ctx with
              step_retry_count := st.ctx.step_retry_count + 1 } },
            res := .ok .HANDLE_CAPTCHA }
        else
          match e.captchaCbR with
          | .exn => { st, res := .error () }
          | .ret code =>
            if code = "" then { st, res := .ok .FAILED }
            else
              { st := { st with ctx := { st.ctx with
                  captcha_code := code, step_retry_count := 0 } },
                res := .ok .PERFORM_LOGIN }

/-- `_step_perform_login`. -/
def stepPerformLogin (unquote : String → String) (e : LoginStepEnv)
    (st : FsmState) : StepOut :=
  match e.casLoginR with
  | .exn => { st, res := .error () }
  | .ret resp =>
    let (status, _max_age, tgt, redirect_url) := parse_cas_login_resp unquote resp
    match status with
    | .SUCCESS =>
      if optTruthy tgt then
        match e.saveTgtR with
        | .exn => { st, res := .error () }
        | .ret _ => { st := { st with redirect_url := redirect_url }, res := .ok .SUCCESS }
      else
        { st := { st with redirect_url := redirect_url }, res := .ok .SUCCESS }
    | .STAGE2_REQUIRED =>
      { st := { st with ctx := { st.ctx with step_retry_count := 0 } },
        res := .ok .HANDLE_STAGE2_2FA }
    | .BAD_CAPTCHA =>
      { st := { st with ctx := { st.ctx with captcha_code := "" } },
        res := .ok .HANDLE_CAPTCHA }
    | .BAD_SMS_CODE =>
      { st := { st with ctx := { st.ctx with sms_code := "", encrypted_sms_code := some "" } },
        res := .ok .HANDLE_STAGE2_2FA }
    | .CIPHER_ERROR =>
      -- cookies.clear(): jar effect only
      { st, res := .ok .FETCH_PUBLIC_KEY }
    | .BAD_CREDENTIALS => { st, res := .ok .FAILED }
    | .FAILED =>
      { st := { st with ctx := { st.ctx with
          step_retry_count := st.ctx.step_retry_count + 1 } },
        res := .ok .PERFORM_LOGIN }

/-- `ctx.phone = phone or ctx.phone` (Python `or`: keep the parsed phone only
when truthy). -/
def pickPhone (phone : Option String) (old : String) : String :=
  match phone with
  | some p => if p ≠ "" then p else old
  | none => old

/-- `_step_handle_stage2`. -/
def stepHandleStage2 (e : Stage2Env) (st : FsmState) : StepOut :=
  match e.sendCodeR with
  | .exn => { st, res := .error () }
  | .ret send_resp =>
    let (status, phone) := parse_send_stage2_code_resp send_resp
    if status = .CIPHER_ERROR then
      -- cookies.clear(): jar effect only
      { st := { st with ctx := { st.ctx with
          step_retry_count := st.ctx.step_retry_count + 1 } },
        res := .ok .FETCH_PUBLIC_KEY }
    else if status = .RATE_LIMITED then
      { st := { st with ctx := { st.ctx with
          step_retry_count := st.ctx.step_retry_count + 1 } },
        res := .ok .HANDLE_STAGE2_2FA,
        sleep := some 70 }
    else if status ≠ .SUCCESS then
      { st := { st with ctx := { st.ctx with
          step_retry_count := st.ctx.step_retry_count + 1 } },
        res := .ok .HANDLE_STAGE2_2FA }
    else
      let st := { st with ctx := { st.ctx with phone := pickPhone phone st.ctx.phone } }
      match e.smsCbR with
      | .exn => { st, res := .error () }
      | .ret sms_code =>
        if sms_code = "" then { st, res := .ok .FAILED }
        else
          { st := { st with ctx := { st.ctx with
              sms_code := sms_code, step_retry_count := 0 } },
            res := .ok .FETCH_PUBLIC_KEY }

/-- Oracle for one iteration of the FSM loop: whichever step runs consumes
its component. -/
structure StepEnv where
  fetchE : FetchKeyEnv := {}
  captchaE : CaptchaEnv := {}
  loginE : LoginStepEnv := {}
  stage2E : Stage2Env := {}
  deriving Repr, DecidableEq

/-- The step dispatch of `_execute_login_fsm`'s `try` block; a step name
outside the four handlers falls into the `else` branch, which sets `FAILED`. -/
def execStep (unquote : String → String) (e : StepEnv) (st : FsmState) :
    AuthStep → StepOut
  | .FETCH_PUBLIC_KEY => stepFetchPublicKey e.fetchE st
  | .HANDLE_CAPTCHA => stepHandleCaptcha e.captchaE st
  | .PERFORM_LOGIN => stepPerformLogin unquote e.loginE st
  | .HANDLE_STAGE2_2FA => stepHandleStage2 e.stage2E st
  | _ => { st, res := .ok .FAILED }

/-- The `while` loop of `_execute_login_fsm`, driven by one environment
record per iteration.  Loop order mirrors the source: terminal states leave
the loop; an exhausted retry budget forces `FAILED` before the step runs; an
exception escaping the handler is caught and bumps the current state's
counter without changing the state.  An exhausted environment list returns
the configuration reached so far. -/
def fsmLoop (unquote : String → String) (max_step_retries : Nat) :
    List StepEnv → FsmState → AuthStep → FsmState × AuthStep
  | [], st, step => (st, step)
  | e :: rest, st, step =>
    if step = .SUCCESS || step = .FAILED then (st, step)
    else if max_step_retries ≤ st.ctx.step_retry_count then (st, .FAILED)
    else
      let out := execStep unquote e st step
      match out.res with
      | .ok next => fsmLoop unquote max_step_retries rest out.st next
      | .error _ =>
        fsmLoop unquote max_step_retries rest
          { out.st with ctx := { out.st.ctx with
              step_retry_count := out.st.ctx.step_retry_count + 1 } } step

/-- `_execute_login_fsm`: fresh context, entry at `FETCH_PUBLIC_KEY`; the
flow succeeded iff the final step is `SUCCESS`. -/
def execute_login_fsm (unquote : String → String) (max_step_retries : Nat)
    (envs : List StepEnv) (username password service : String)
    (redirect0 : Option String) : FsmState × AuthStep :=
  fsmLoop unquote max_step_retries envs
    { ctx := { username := username, raw_password := password, service := service },
      redirect_url := redirect0 }
    .FETCH_PUBLIC_KEY

/-! ## `SEUAuthManager.login` -/

/-- Oracle for one call of `login`: the collaborator calls made before the
FSM starts, plus the per-iteration environments of the FSM itself. -/
structure ManagerEnv where
  /-- `storage.save_fingerprint` when an explicit fingerprint was given. -/
  saveFpExplicitR : CallRes Unit := .ret ()
  /-- `storage.load_fingerprint`. -/
  loadFpR : CallRes (Option String) := .ret none
  /-- `storage.save_fingerprint` after generating a fresh fingerprint. -/
  saveFpGeneratedR : CallRes Unit := .ret ()
  /-- `storage.load_tgt` inside `_try_resume_session`. -/
  loadTgtR : CallRes (Option String) := .ret none
  /-- `SEUAuthClient.verify_tgt` inside `_try_resume_session`. -/
  verifyTgtR : CallRes Resp := .exn
  /-- The per-iteration FSM oracles. -/
  fsmEnvs : List StepEnv := []

/-- `SEUAuthManager._prepare_fingerprint`.  A truthy constructor
fingerprint is saved; otherwise a truthy stored fingerprint is used;
otherwise a fresh one is generated (`gen_fingerprint`, pure randomness)
and saved.  Storage calls run outside any `try` block, so their exceptions
escape. -/
def prepare_fingerprint (explicit_fingerprint : Option String)
    (env : ManagerEnv) : Except Unit Unit :=
  if optTruthy explicit_fingerprint then
    match env.saveFpExplicitR with
    | .exn => .error ()
    | .ret _ => .ok ()
  else
    match env.loadFpR with
    | .exn => .error ()
    | .ret stored =>
      if optTruthy stored then .ok ()
      else
        match env.saveFpGeneratedR with
        | .exn => .error ()
        | .ret _ => .ok ()

/-- `SEUAuthManager._try_resume_session`: `storage.load_tgt` runs outside the
`try` block (its exceptions escape), `verify_tgt` inside it (its exceptions
are caught and the resume attempt reports failure).  Returns whether the
session resumed and, when it did, the parsed redirect URL. -/
def try_resume_session (env : ManagerEnv) : Except Unit (Bool × Option String) :=
  match env.loadTgtR with
  | .exn => .error ()
  | .ret tgt =>
    if !optTruthy tgt then .ok (false, none)
    else
      -- load_cookies({"TGT": tgt}): jar effect only
      match env.verifyTgtR with
      | .exn =>
        -- caught: fall through, delete the stale TGT cookie, report failure
        .ok (false, none)
      | .ret data =>
        let (valid, redirect_url) := parse_verify_tgt_resp data
        if valid then .ok (true, redirect_url) else .ok (false, none)

/-- The caller-visible result of `login`: `some r` models
`(self._auth_client.client, r)` and `none` models `(None, None)`. -/
def LoginResult : Type := Option (Option String)

/-- `SEUAuthManager.login`.  Opens the client (pure in the model), prepares
the fingerprint, optionally attempts a session resume, and otherwise runs
the FSM; `.error` marks an exception propagating to the caller. -/
def login (unquote : String → String) (max_step_retries : Nat)
    (explicit_fingerprint : Option String) (env : ManagerEnv)
    (username password : String) (force_refresh : Bool) (service : String) :
    Except Unit LoginResult :=
  match prepare_fingerprint explicit_fingerprint env with
  | .error e => .error e
  | .ok _ =>
    -- self._redirect_url = None
    let runFsm : Except Unit LoginResult :=
      let fsmRes :=
        execute_login_fsm unquote max_step_retries env.fsmEnvs
          username password service none
      if fsmRes.2 = .SUCCESS then .ok (some fsmRes.1.redirect_url) else .ok none
    if force_refresh then runFsm
    else
      match try_resume_session env with
      | .error e => .error e
      | .ok (true, redirect_url) => .ok (some redirect_url)
      | .ok (false, _) => runFsm



/-- A sample persisted store holding one unrelated user's record. -/
def sampleStore : StorageData := { tgt_map := [("bob", ⟨"TGT-OLD", some 50⟩)] }

/-- A public key handed over in a canonical PEM envelope. -/
def pemWrappedKey : String :=
  "-----BEGIN PUBLIC KEY-----\nMIGfMA0GCSqGSIb3\n-----END PUBLIC KEY-----"

/-- The acceptance condition of `parse_get_cipher_key_resp` as implemented:
2xx status, success flag, and a *present* (possibly empty) `publicKey`. -/
def cipherKeyOk (resp : Resp) : Bool :=
  (200 ≤ resp.code.getD 0 && resp.code.getD 0 < 300) && resp.success.getD false
    && resp.publicKey.isSome

/-- A cipher-key response whose key field is present but empty. -/
def emptyKeyResp : Resp :=
  { code := some 200, success := some true, info := some "get public key success",
    publicKey := some "" }

/-- Deletion of every newline, carriage-return and space character. -/
def stripSpaceNlCr (s : String) : List Char :=
  s.toList.filter (fun c => !(c = '\n' || c = '\r' || c = ' '))

def loginSuccessCond (resp : Resp) : Bool :=
  (200 ≤ resp.code.getD 0 && resp.code.getD 0 < 300) && resp.success.getD false
    && optTruthy resp.tgtCookie

def stage2Cond (resp : Resp) : Bool :=
  resp.code.getD 0 == 502 || resp.needStage2Validation.getD false ||
    (strIn "设备" (pyLower (resp.info.getD "")) && strIn "验证" (pyLower (resp.info.getD "")))

def credentialsCond (resp : Resp) : Bool :=
  resp.code.getD 0 == 402 ||
    (strIn "用户名" (pyLower (resp.info.getD "")) || strIn "密码" (pyLower (resp.info.getD "")))

def captchaCond (resp : Resp) : Bool :=
  (resp.code.getD 0 == 4000 || resp.code.getD 0 == 4001) &&
    strIn "验证码" (pyLower (resp.info.getD ""))

def smsCond (resp : Resp) : Bool :=
  resp.code.getD 0 == 503 && strIn "验证码" (pyLower (resp.info.getD ""))

def cipherCond (resp : Resp) : Bool :=
  strIn "过期" (pyLower (resp.info.getD "")) || strIn "失效" (pyLower (resp.info.getD "")) ||
    strIn "刷新" (pyLower (resp.info.getD ""))

/-- The fixed priority order of the spec for non-successful login responses:
second factor, then credentials, then captcha, then SMS code, then cipher
desynchronization, else generic failure. -/
def casLoginPriority (resp : Resp) : CasLoginStatus :=
  if stage2Cond resp then .STAGE2_REQUIRED
  else if credentialsCond resp then .BAD_CREDENTIALS
  else if captchaCond resp then .BAD_CAPTCHA
  else if smsCond resp then .BAD_SMS_CODE
  else if cipherCond resp then .CIPHER_ERROR
  else .FAILED

/-- The spec's Scenario-2 response: untrusted device, second factor needed. -/
def respUntrustedDevice : Resp :=
  { code := some 502, success := some false, info := some "非可信设备，需要二次验证" }

/-- The guard of the success branch of `parse_send_stage2_code_resp`. -/
def stage2SendOk (resp : Resp) : Bool :=
  (200 ≤ resp.code.getD 0 && resp.code.getD 0 < 300) && resp.success.getD false

/-- The cipher-desynchronization guard: dedicated code 5002 or
expiry/invalidation/refresh wording. -/
def stage2CipherCond (resp : Resp) : Bool :=
  resp.code.getD 0 == 5002 ||
    (strIn "过期" (pyLower (resp.info.getD "")) || strIn "失效" (pyLower (resp.info.getD "")) ||
      strIn "刷新" (pyLower (resp.info.getD "")))

/-- The rate-limit guard: dedicated code 5001 or too-many/retry wording. -/
def stage2RateCond (resp : Resp) : Bool :=
  resp.code.getD 0 == 5001 ||
    (strIn "过多" (pyLower (resp.info.getD "")) || strIn "重试" (pyLower (resp.info.getD "")))

/-- The spec's Scenario-4 response: SMS dispatch rate-limited. -/
def respRateLimited : Resp :=
  { code := some 5001, success := some false,
    info := some "短时间内发送验证码次数过多，请等候60秒再重试" }

/-- A state sitting at the stage-2 step. -/
def stage2StWitness : FsmState :=
  { ctx := { username := "213200001", raw_password := "pw", step_retry_count := 1 } }

/-- A jar holding an application cookie and a stale token. -/
def sampleJar : CookieJar := [("JSESSIONID", "abc"), ("TGT", "OLD-TGT")]

/-- Initial FSM state of a fresh login attempt. -/
def fsmInit : FsmState :=
  { ctx := { username := "213200001", raw_password := "pw" } }

/-- A successful cipher-key response. -/
def respKeyOk : Resp :=
  { code := some 200, success := some true,
    info := some "get public key success", publicKey := some "MIGfM" }

/-- A captcha probe answering "not required". -/
def respNoCaptcha : Resp :=
  { code := some 200, info := some "不需要验证码", success := some true }

/-- A login rejection with an unrecognized error code. -/
def respLoginFail : Resp :=
  { code := some 999, success := some false, info := some "server error" }

/-- A login rejection caused by an expired cipher session. -/
def respLoginCipherError : Resp :=
  { code := some 500, success := some false,
    info := some "登陆态已过期，请刷新页面重新登陆" }

/-- Iteration oracle: key fetched, correlation cookie present, password
encrypted. -/
def fetchOkEnv : StepEnv :=
  { fetchE :=
    { getCipherKeyR := .ret respKeyOk, chiperUidCookie := some "uid-1",
      saveCipherUidR := .ret (), rsaPassword := some "ENC-PW" } }

/-- Iteration oracle: no captcha required. -/
def captchaSkipEnv : StepEnv :=
  { captchaE := { needCaptchaR := .ret respNoCaptcha } }

/-- Iteration oracle: login rejected with an unrecognized error. -/
def loginFailEnv : StepEnv :=
  { loginE := { casLoginR := .ret respLoginFail } }

/-- Iteration oracle: login rejected because the cipher session expired. -/
def loginCipherEnv : StepEnv :=
  { loginE := { casLoginR := .ret respLoginCipherError } }

/-- Three iterations: key fetched, captcha skipped, one generic login
failure (counter 1 at `PERFORM_LOGIN`). -/
def traceToLoginRetry : List StepEnv := [fetchOkEnv, captchaSkipEnv, loginFailEnv]

/-- The same trace followed by a cipher error, which moves the flow back to
`FETCH_PUBLIC_KEY`. -/
def traceCipherBack : List StepEnv :=
  [fetchOkEnv, captchaSkipEnv, loginFailEnv, loginCipherEnv]

/-- A state whose counter already sits at the maximum. -/
def fsmExhausted : FsmState :=
  { ctx := { username := "213200001", raw_password := "pw", step_retry_count := 3 } }

/-- An environment whose `load_fingerprint` call raises. -/
def envLoadFpRaises : ManagerEnv := { loadFpR := .exn }

/-- All pre-FSM calls succeed, no stored token, and every FSM iteration's
transport call raises. -/
def envAllStepsRaise : ManagerEnv :=
  { loadTgtR := .ret none, fsmEnvs := [{}, {}, {}, {}] }


/-! ## Theorems -/

theorem dictGet_insert_self {α : Type} (m : List (String × α)) (k : String) (v : α) :
    dictGet (dictInsert m k v) k = some v := by
  induction m with
  | nil => simp [dictGet, dictInsert]
  | cons p tl ih =>
    by_cases h : p.1 = k <;> simp [dictGet, dictInsert, h, ih]

theorem dictGet_insert_ne {α : Type} (m : List (String × α)) (k : String) (v : α)
    (k' : String) (h : k' ≠ k) :
    dictGet (dictInsert m k v) k' = dictGet m k' := by
  have hkk' : ¬ k = k' := fun hc => h hc.symm
  induction m with
  | nil => simp [dictGet, dictInsert, hkk']
  | cons p tl ih =>
    by_cases hp : p.1 = k
    · have hpk' : ¬ p.1 = k' := fun hc => h (hc.symm.trans hp)
      simp [dictGet, dictInsert, hp, hpk', hkk']
    · by_cases hpk' : p.1 = k' <;> simp [dictGet, dictInsert, hp, hpk', ih, h]

theorem dictGet_erase_self {α : Type} (m : List (String × α)) (k : String) :
    dictGet (dictErase m k) k = none := by
  induction m with
  | nil => rfl
  | cons p tl ih =>
    by_cases h : p.1 = k <;> simp [dictGet, dictErase, h, ih]

theorem dictGet_eq_none_of_not_mem_keys {α : Type} (m : List (String × α))
    (k : String) (h : k ∉ m.map Prod.fst) : dictGet m k = none := by
  induction m with
  | nil => rfl
  | cons p tl ih =>
    simp only [List.map_cons, List.mem_cons, not_or] at h
    have h1 : ¬ p.1 = k := fun hc => h.1 hc.symm
    simp [dictGet, h1, ih h.2]

/-- C6: a record saved with non-positive max-age loads as valid at every
later time; one saved with positive max-age N loads as valid immediately
and as absent once N seconds have elapsed, the load evicting the entry. -/
theorem claim_C6_session_record_expiry (d : StorageData) (tgt username : String)
    (now max_age t : Int) :
    (max_age ≤ 0 →
      load_tgt t (save_tgt now d tgt max_age username) username
        = (some tgt, save_tgt now d tgt max_age username)) ∧
    (0 < max_age →
      load_tgt now (save_tgt now d tgt max_age username) username
        = (some tgt, save_tgt now d tgt max_age username)) ∧
    (0 < max_age → now + max_age ≤ t →
      (load_tgt t (save_tgt now d tgt max_age username) username).1 = none ∧
      dictGet ((load_tgt t (save_tgt now d tgt max_age username) username).2).tgt_map
        username = none) := by
  refine ⟨?_, ?_, ?_⟩
  · intro h
    have hma : ¬ max_age > 0 := by omega
    simp [load_tgt, save_tgt, hma, dictGet_insert_self]
  · intro h
    simp [load_tgt, save_tgt, h, dictGet_insert_self]
  · intro h ht
    have hlt : ¬ t < now + max_age := by omega
    constructor
    · simp [load_tgt, save_tgt, h, dictGet_insert_self, hlt]
    · simp [load_tgt, save_tgt, h, dictGet_insert_self, hlt, dictGet_erase_self]


/-- Witness for C6 at a concrete store, clock and max-age values. -/
theorem claim_C6_session_record_expiry_witness :
    (load_tgt 1000000 (save_tgt 5 sampleStore "TGT-A" 0 "alice") "alice"
      = (some "TGT-A", save_tgt 5 sampleStore "TGT-A" 0 "alice")) ∧
    (load_tgt 5 (save_tgt 5 sampleStore "TGT-B" 60 "alice") "alice"
      = (some "TGT-B", save_tgt 5 sampleStore "TGT-B" 60 "alice")) ∧
    ((load_tgt 65 (save_tgt 5 sampleStore "TGT-B" 60 "alice") "alice").1 = none ∧
      dictGet ((load_tgt 65 (save_tgt 5 sampleStore "TGT-B" 60 "alice") "alice").2).tgt_map
        "alice" = none) :=
  ⟨(claim_C6_session_record_expiry sampleStore "TGT-A" "alice" 5 0 1000000).1 (by decide),
   (claim_C6_session_record_expiry sampleStore "TGT-B" "alice" 5 60 5).2.1 (by decide),
   (claim_C6_session_record_expiry sampleStore "TGT-B" "alice" 5 60 65).2.2 (by decide) (by decide)⟩

/-- C7: every classifier maps the empty payload `{}` to its most conservative
outcome: `FAILED` for cipher-key fetch, login submission and SMS dispatch,
captcha-required for the captcha probe, invalid for session verification. -/
theorem claim_C7_empty_payload_conservative :
    (∀ unquote : String → String,
      parse_cas_login_resp unquote emptyResp = (.FAILED, 0, none, none)) ∧
    parse_get_cipher_key_resp emptyResp = (.FAILED, none) ∧
    parse_send_stage2_code_resp emptyResp = (.FAILED, none) ∧
    parse_need_captcha_resp emptyResp = true ∧
    parse_verify_tgt_resp emptyResp = (false, none) :=
  ⟨fun _ => rfl, rfl, rfl, rfl, rfl⟩

/-- C4 (failing input): the Base64URL translation replaces every dash
before the marker check runs, so a key already carrying the PEM markers is
mangled (the markers become `+++++BEGIN PUBLIC KEY+++++`) and wrapped in a
second envelope, instead of being kept canonical; raw bodies, by contrast,
are normalized as documented. -/
theorem claim_C4_normalize_mangles_pem_input :
    normalize_pem_public_key pemWrappedKey =
      "-----BEGIN PUBLIC KEY-----\n+++++BEGIN PUBLIC KEY+++++\nMIGfMA0GCSqGSIb3\n+++++END PUBLIC KEY+++++\n-----END PUBLIC KEY-----" ∧
    normalize_pem_public_key pemWrappedKey ≠ pemWrappedKey ∧
    normalize_pem_public_key "MIGf-A0G_Ib3"
      = "-----BEGIN PUBLIC KEY-----\nMIGf+A0G/Ib3\n-----END PUBLIC KEY-----" ∧
    normalize_pem_public_key "MIGf+A0G/Ib3"
      = "-----BEGIN PUBLIC KEY-----\nMIGf+A0G/Ib3\n-----END PUBLIC KEY-----" := by
  refine ⟨by decide, by decide, by decide, by decide⟩

/-- C5 (counterexample): a 2xx, success-flagged response whose `publicKey`
is the empty string is classified `SUCCESS` with the empty key returned,
not `FAILED` — the source only checks `publicKey is not None`. -/
theorem claim_C5_counterexample :
    parse_get_cipher_key_resp emptyKeyResp = (.SUCCESS, some "") := by decide

/-- C5 (amended): classification is `SUCCESS`/`REUSE` iff the status code is
2xx, the success flag is set and the key field is present (`REUSE` exactly
when the message carries the "reuse" marker); otherwise `FAILED` with no
key. -/
theorem claim_C5_cipher_key_classification (resp : Resp) :
    ((parse_get_cipher_key_resp resp).1 ≠ .FAILED ↔ cipherKeyOk resp = true) ∧
    ((parse_get_cipher_key_resp resp).1 = .REUSE ↔
      (cipherKeyOk resp = true ∧
        strIn "reuse" (pyLower (resp.info.getD "")) = true)) ∧
    (cipherKeyOk resp = true →
      (parse_get_cipher_key_resp resp).2 = resp.publicKey) ∧
    (cipherKeyOk resp = false →
      parse_get_cipher_key_resp resp = (.FAILED, none)) := by
  unfold parse_get_cipher_key_resp cipherKeyOk
  rcases h1 : (200 ≤ resp.code.getD 0 && resp.code.getD 0 < 300) && resp.success.getD false
      && resp.publicKey.isSome with _ | _ <;>
    rcases h2 : strIn "reuse" (pyLower (resp.info.getD "")) with _ | _ <;>
      simp [h1, h2]

/-- Witness for C5 at the empty-key and empty-payload responses. -/
theorem claim_C5_cipher_key_classification_witness :
    ((parse_get_cipher_key_resp emptyKeyResp).1 ≠ .FAILED ↔ cipherKeyOk emptyKeyResp = true) ∧
    (cipherKeyOk emptyResp = false → parse_get_cipher_key_resp emptyResp = (.FAILED, none)) :=
  ⟨(claim_C5_cipher_key_classification emptyKeyResp).1,
   (claim_C5_cipher_key_classification emptyResp).2.2.2⟩

theorem cleanPubKey_eq_strip (key : String) :
    (cleanPubKey key).toList = stripSpaceNlCr key := by
  show (((key.toList.filter (· ≠ '\n')).filter (· ≠ ' ')).filter (· ≠ '\r'))
    = key.toList.filter (fun c => !(c = '\n' || c = '\r' || c = ' '))
  induction key.toList with
  | nil => rfl
  | cons c tl ih =>
    by_cases h1 : c = '\n' <;> by_cases h2 : c = ' ' <;> by_cases h3 : c = '\r' <;>
      simp_all [List.filter_cons]

/-- C10: `hash_pub_key` is insensitive to newline, carriage-return and space
characters — two keys identical after deleting all of them receive the same
digest under every digest oracle, so the correlation-cookie cache treats
them as the same key. -/
theorem claim_C10_hash_whitespace_insensitive (md5hex : String → String)
    (k1 k2 : String) (h : stripSpaceNlCr k1 = stripSpaceNlCr k2) :
    hash_pub_key md5hex k1 = hash_pub_key md5hex k2 := by
  unfold hash_pub_key
  congr 1
  have e1 := cleanPubKey_eq_strip k1
  have e2 := cleanPubKey_eq_strip k2
  have : (cleanPubKey k1).toList = (cleanPubKey k2).toList := by rw [e1, e2, h]
  calc cleanPubKey k1 = String.mk (cleanPubKey k1).toList := rfl
    _ = String.mk (cleanPubKey k2).toList := by rw [this]
    _ = cleanPubKey k2 := rfl

/-- Witness for C10 at two concretely wrapped keys under a concrete digest oracle. -/
theorem claim_C10_hash_whitespace_insensitive_witness :
    stripSpaceNlCr "MIGf MA0G\r\n" = stripSpaceNlCr "MIGfMA0G" ∧
    hash_pub_key cleanPubKey "MIGf MA0G\r\n" = hash_pub_key cleanPubKey "MIGfMA0G" :=
  ⟨by decide, claim_C10_hash_whitespace_insensitive cleanPubKey _ _ (by decide)⟩



/-! ### Login-classification priority conditions

The guard of each branch of `parse_cas_login_resp`, as a named predicate,
and the priority-ordered decision policy the spec describes; the theorem for
the classification claim relates the implementation to this cascade. -/

theorem parse_cas_login_status_spec (unquote : String → String) (resp : Resp) :
    (parse_cas_login_resp unquote resp).1 =
      if loginSuccessCond resp then .SUCCESS else casLoginPriority resp := by
  simp only [parse_cas_login_resp, casLoginPriority, loginSuccessCond, stage2Cond,
    credentialsCond, captchaCond, smsCond, cipherCond]
  split_ifs <;> rfl

/-- C3: below `SUCCESS`, `parse_cas_login_resp` classifies by the fixed
priority order second-factor, bad credentials, bad captcha, bad SMS code,
cipher error, generic failure; the untrusted-device response is classified
`STAGE2_REQUIRED`, on which the login step resets the counter and moves to
the SMS-dispatch state. -/
theorem claim_C3_login_classification_precedence :
    (∀ (unquote : String → String) (resp : Resp),
      loginSuccessCond resp = false →
      (parse_cas_login_resp unquote resp).1 = casLoginPriority resp) ∧
    (∀ unquote : String → String,
      parse_cas_login_resp unquote respUntrustedDevice
        = (.STAGE2_REQUIRED, 0, none, none)) ∧
    (∀ (unquote : String → String) (e : LoginStepEnv) (st : FsmState) (resp : Resp),
      e.casLoginR = .ret resp →
      (parse_cas_login_resp unquote resp).1 = .STAGE2_REQUIRED →
      stepPerformLogin unquote e st =
        { st := { st with ctx := { st.ctx with step_retry_count := 0 } },
          res := .ok .HANDLE_STAGE2_2FA }) := by
  refine ⟨?_, ?_, ?_⟩
  · intro unquote resp h
    rw [parse_cas_login_status_spec unquote resp, h]
    simp
  · intro unquote
    rfl
  · intro unquote e st resp he hst
    unfold stepPerformLogin
    rw [he]
    rcases hp : parse_cas_login_resp unquote resp with ⟨status, ma, tgt, ru⟩
    rw [hp] at hst
    simp only at hst
    subst hst
    simp [hp]

/-- Witness for C3 at the untrusted-device response. -/
theorem claim_C3_login_classification_precedence_witness :
    (loginSuccessCond respUntrustedDevice = false ∧
      (parse_cas_login_resp id respUntrustedDevice).1 = casLoginPriority respUntrustedDevice) ∧
    stepPerformLogin id { casLoginR := .ret respUntrustedDevice }
        { ctx := { username := "213200001", raw_password := "pw" } } =
      { st := { ctx := { username := "213200001", raw_password := "pw",
                         step_retry_count := 0 } },
        res := .ok .HANDLE_STAGE2_2FA } :=
  ⟨⟨by decide, claim_C3_login_classification_precedence.1 id respUntrustedDevice (by decide)⟩,
   claim_C3_login_classification_precedence.2.2 id _ _ respUntrustedDevice rfl (by decide)⟩


/-! ### SMS-dispatch classification -/

theorem findPhone_spec (cs : List Char) (p : String) (h : findPhone cs = some p) :
    p.toList.length = 11 ∧ p.toList.all Char.isDigit = true ∧
      listInfixB p.toList cs = true := by
  induction cs with
  | nil => simp [findPhone] at h
  | cons c tl ih =>
    simp only [findPhone] at h
    by_cases hc : (((c :: tl).take 11).length == 11 &&
        ((c :: tl).take 11).all Char.isDigit) = true
    · rw [if_pos hc] at h
      simp only [Bool.and_eq_true] at hc
      obtain ⟨hlen, hdig⟩ := hc
      obtain rfl : String.mk ((c :: tl).take 11) = p := Option.some.inj h
      refine ⟨by simpa using hlen, hdig, ?_⟩
      rw [listInfixB]
      simp only [Bool.or_eq_true]
      exact Or.inl (List.isPrefixOf_iff_prefix.mpr (List.take_prefix 11 (c :: tl)))
    · rw [if_neg hc] at h
      obtain ⟨h1, h2, h3⟩ := ih h
      refine ⟨h1, h2, ?_⟩
      rw [listInfixB]
      simp only [Bool.or_eq_true]
      exact Or.inr h3

theorem parse_send_stage2_fst (resp : Resp) :
    (parse_send_stage2_code_resp resp).1 =
      if stage2SendOk resp then .SUCCESS
      else if stage2CipherCond resp then .CIPHER_ERROR
      else if stage2RateCond resp then .RATE_LIMITED
      else .FAILED := by
  simp only [parse_send_stage2_code_resp, stage2SendOk, stage2CipherCond, stage2RateCond]
  split_ifs <;> rfl

theorem parse_send_stage2_snd (resp : Resp) :
    (parse_send_stage2_code_resp resp).2 =
      if stage2SendOk resp then findPhone (pyLower (resp.info.getD "")).toList
      else none := by
  simp only [parse_send_stage2_code_resp, stage2SendOk]
  split_ifs <;> rfl

/-- C8: SMS-dispatch classification — `SUCCESS` iff 2xx and success flag,
any extracted phone number being an 11-digit run occurring in the message;
below that, code 5002 or expiry wording gives `CIPHER_ERROR`, code 5001 or
too-many/retry wording gives `RATE_LIMITED`, anything else `FAILED`; on a
rate-limited dispatch the stage-2 step sleeps the fixed 70-second cooldown
and retries `HANDLE_STAGE2_2FA` with the counter bumped by exactly one. -/
theorem claim_C8_sms_dispatch_classification :
    (∀ resp : Resp,
      ((parse_send_stage2_code_resp resp).1 = .SUCCESS ↔ stage2SendOk resp = true) ∧
      ((parse_send_stage2_code_resp resp).1 = .CIPHER_ERROR ↔
        (stage2SendOk resp = false ∧ stage2CipherCond resp = true)) ∧
      ((parse_send_stage2_code_resp resp).1 = .RATE_LIMITED ↔
        (stage2SendOk resp = false ∧ stage2CipherCond resp = false ∧
          stage2RateCond resp = true)) ∧
      ((parse_send_stage2_code_resp resp).1 = .FAILED ↔
        (stage2SendOk resp = false ∧ stage2CipherCond resp = false ∧
          stage2RateCond resp = false)) ∧
      (∀ p : String, (parse_send_stage2_code_resp resp).2 = some p →
        p.toList.length = 11 ∧ p.toList.all Char.isDigit = true ∧
          listInfixB p.toList (pyLower (resp.info.getD "")).toList = true)) ∧
    (∀ (e : Stage2Env) (st : FsmState) (resp : Resp),
      e.sendCodeR = .ret resp →
      (parse_send_stage2_code_resp resp).1 = .RATE_LIMITED →
      stepHandleStage2 e st =
        { st := { st with ctx := { st.ctx with
            step_retry_count := st.ctx.step_retry_count + 1 } },
          res := .ok .HANDLE_STAGE2_2FA,
          sleep := some 70 }) := by
  constructor
  · intro resp
    refine ⟨?_, ?_, ?_, ?_, ?_⟩
    · rw [parse_send_stage2_fst]
      rcases h1 : stage2SendOk resp with _ | _ <;>
        rcases h2 : stage2CipherCond resp with _ | _ <;>
          rcases h3 : stage2RateCond resp with _ | _ <;> simp
    · rw [parse_send_stage2_fst]
      rcases h1 : stage2SendOk resp with _ | _ <;>
        rcases h2 : stage2CipherCond resp with _ | _ <;>
          rcases h3 : stage2RateCond resp with _ | _ <;> simp
    · rw [parse_send_stage2_fst]
      rcases h1 : stage2SendOk resp with _ | _ <;>
        rcases h2 : stage2CipherCond resp with _ | _ <;>
          rcases h3 : stage2RateCond resp with _ | _ <;> simp
    · rw [parse_send_stage2_fst]
      rcases h1 : stage2SendOk resp with _ | _ <;>
        rcases h2 : stage2CipherCond resp with _ | _ <;>
          rcases h3 : stage2RateCond resp with _ | _ <;> simp
    · intro p hp
      rw [parse_send_stage2_snd] at hp
      by_cases h1 : stage2SendOk resp = true
      · rw [if_pos h1] at hp
        exact findPhone_spec _ p hp
      · rw [if_neg h1] at hp
        exact Option.noConfusion hp
  · intro e st resp he hst
    unfold stepHandleStage2
    rw [he]
    rcases hp : parse_send_stage2_code_resp resp with ⟨status, phone⟩
    rw [hp] at hst
    simp only at hst
    subst hst
    simp [hp]


/-- Witness for C8 at the rate-limited dispatch response. -/
theorem claim_C8_sms_dispatch_classification_witness :
    ((parse_send_stage2_code_resp respRateLimited).1 = .RATE_LIMITED ↔
      (stage2SendOk respRateLimited = false ∧ stage2CipherCond respRateLimited = false ∧
        stage2RateCond respRateLimited = true)) ∧
    stepHandleStage2 { sendCodeR := .ret respRateLimited } stage2StWitness =
      { st := { stage2StWitness with ctx := { stage2StWitness.ctx with
          step_retry_count := stage2StWitness.ctx.step_retry_count + 1 } },
        res := .ok .HANDLE_STAGE2_2FA,
        sleep := some 70 } :=
  ⟨(claim_C8_sms_dispatch_classification.1 respRateLimited).2.2.1,
   claim_C8_sms_dispatch_classification.2 _ stage2StWitness respRateLimited rfl (by decide)⟩

/-! ### Cookie-jar restoration -/

theorem jarGet_update_of_nodup (l : List (String × String)) (acc : CookieJar)
    (k : String) (hnodup : (l.map Prod.fst).Nodup) :
    jarGet (jarUpdate acc l) k = (jarGet l k).or (jarGet acc k) := by
  induction l generalizing acc with
  | nil => simp [jarUpdate, jarGet, dictGet]
  | cons p tl ih =>
    simp only [List.map_cons, List.nodup_cons] at hnodup
    obtain ⟨head_notin, htl⟩ := hnodup
    rw [show jarUpdate acc (p :: tl) = jarUpdate (jarSet acc p.1 p.2) tl from rfl]
    rw [ih (jarSet acc p.1 p.2) htl]
    by_cases hk : p.1 = k
    · have htlk : jarGet tl k = none :=
        dictGet_eq_none_of_not_mem_keys tl k (hk ▸ head_notin)
      have hacck : jarGet (jarSet acc p.1 p.2) k = some p.2 := by
        rw [jarGet, jarSet, hk]
        exact dictGet_insert_self acc k p.2
      have hcons : jarGet (p :: tl) k = some p.2 := by
        simp [jarGet, dictGet, hk]
      rw [htlk, hacck, hcons]
      rfl
    · have hset : jarGet (jarSet acc p.1 p.2) k = jarGet acc k :=
        dictGet_insert_ne acc p.1 p.2 k (fun hc => hk hc.symm)
      have hcons : jarGet (p :: tl) k = jarGet tl k := by
        simp [jarGet, dictGet, hk]
      rw [hcons, hset]


/-- C9: calling `verify_tgt` with an explicit token leaves the caller's
cookie jar observationally unchanged on every exit path — the request may
mutate the jar arbitrarily and may raise, yet every cookie reads back as
before the call. -/
theorem claim_C9_verify_tgt_cookie_frame
    (request : CookieJar → CallRes (Resp × CookieJar)) (jar : CookieJar)
    (tgt k : String) (hnodup : (jar.map Prod.fst).Nodup) :
    jarGet ((verify_tgt_with_token request jar tgt).1) k = jarGet jar k := by
  have hrestore : jarGet (jarUpdate jarClear jar) k = jarGet jar k := by
    rw [jarGet_update_of_nodup jar jarClear k hnodup]
    rw [show jarGet jarClear k = none from rfl]
    simp
  simp only [verify_tgt_with_token]
  cases hreq : request (jarSet jar "TGT" tgt) with
  | ret v =>
    obtain ⟨data, jar2⟩ := v
    simp [hreq, hrestore]
  | exn => simp [hreq, hrestore]

/-- Witness for C9 at a concrete jar and a raising request. -/
theorem claim_C9_verify_tgt_cookie_frame_witness :
    jarGet ((verify_tgt_with_token (fun _ => .exn) sampleJar "NEW-TGT").1) "TGT"
      = jarGet sampleJar "TGT" :=
  claim_C9_verify_tgt_cookie_frame (fun _ => .exn) sampleJar "NEW-TGT" "TGT" (by decide)


/-! ### Retry-counter accounting of the step handlers -/

theorem stepFetch_count (e : FetchKeyEnv) (st : FsmState) :
    (stepFetchPublicKey e st).st.ctx.step_retry_count ≤ st.ctx.step_retry_count + 1 ∧
    ((stepFetchPublicKey e st).res = .error () →
      (stepFetchPublicKey e st).st.ctx.step_retry_count = st.ctx.step_retry_count) := by
  cases hg : e.getCipherKeyR with
  | exn => simp [stepFetchPublicKey, hg]
  | ret data =>
    rcases hp : parse_get_cipher_key_resp data with ⟨status, pub_key⟩
    cases hs : e.saveCipherUidR <;> cases hc : e.getCachedUidR <;>
      simp only [stepFetchPublicKey, encryptAndAdvance, hg, hp, hs, hc] <;>
        (try split_ifs) <;> simp

theorem stepCaptcha_count (e : CaptchaEnv) (st : FsmState) :
    (stepHandleCaptcha e st).st.ctx.step_retry_count ≤ st.ctx.step_retry_count + 1 ∧
    ((stepHandleCaptcha e st).res = .error () →
      (stepHandleCaptcha e st).st.ctx.step_retry_count = st.ctx.step_retry_count) := by
  cases hn : e.needCaptchaR <;> cases hi : e.getCaptchaR <;> cases hb : e.captchaCbR <;>
    simp only [stepHandleCaptcha, hn, hi, hb] <;> (try split_ifs) <;> simp

theorem stepLogin_count (unquote : String → String) (e : LoginStepEnv) (st : FsmState) :
    (stepPerformLogin unquote e st).st.ctx.step_retry_count ≤ st.ctx.step_retry_count + 1 ∧
    ((stepPerformLogin unquote e st).res = .error () →
      (stepPerformLogin unquote e st).st.ctx.step_retry_count = st.ctx.step_retry_count) := by
  cases hl : e.casLoginR with
  | exn => simp [stepPerformLogin, hl]
  | ret resp =>
    rcases hp : parse_cas_login_resp unquote resp with ⟨status, ma, tgt, ru⟩
    cases hs : e.saveTgtR <;>
      cases status <;>
        simp only [stepPerformLogin, hl, hp, hs] <;> (try split_ifs) <;> simp

theorem stepStage2_count (e : Stage2Env) (st : FsmState) :
    (stepHandleStage2 e st).st.ctx.step_retry_count ≤ st.ctx.step_retry_count + 1 ∧
    ((stepHandleStage2 e st).res = .error () →
      (stepHandleStage2 e st).st.ctx.step_retry_count = st.ctx.step_retry_count) := by
  cases hd : e.sendCodeR with
  | exn => simp [stepHandleStage2, hd]
  | ret resp =>
    rcases hp : parse_send_stage2_code_resp resp with ⟨status, phone⟩
    cases hb : e.smsCbR <;>
      simp only [stepHandleStage2, hd, hp, hb] <;> (try split_ifs) <;> simp

theorem execStep_count (unquote : String → String) (e : StepEnv) (st : FsmState)
    (step : AuthStep) :
    (execStep unquote e st step).st.ctx.step_retry_count ≤ st.ctx.step_retry_count + 1 ∧
    ((execStep unquote e st step).res = .error () →
      (execStep unquote e st step).st.ctx.step_retry_count = st.ctx.step_retry_count) := by
  cases step with
  | FETCH_PUBLIC_KEY => exact stepFetch_count e.fetchE st
  | HANDLE_CAPTCHA => exact stepCaptcha_count e.captchaE st
  | PERFORM_LOGIN => exact stepLogin_count unquote e.loginE st
  | HANDLE_STAGE2_2FA => exact stepStage2_count e.stage2E st
  | INIT => exact ⟨Nat.le_succ _, fun h => by simp [execStep] at h⟩
  | CHECK_LOCAL_SESSION => exact ⟨Nat.le_succ _, fun h => by simp [execStep] at h⟩
  | SUCCESS => exact ⟨Nat.le_succ _, fun h => by simp [execStep] at h⟩
  | FAILED => exact ⟨Nat.le_succ _, fun h => by simp [execStep] at h⟩

theorem fsmLoop_count_le (unquote : String → String) (max_step_retries : Nat) :
    ∀ (envs : List StepEnv) (st : FsmState) (step : AuthStep),
      st.ctx.step_retry_count ≤ max_step_retries →
      (fsmLoop unquote max_step_retries envs st step).1.ctx.step_retry_count
        ≤ max_step_retries := by
  intro envs
  induction envs with
  | nil =>
    intro st step h
    simpa [fsmLoop] using h
  | cons e rest ih =>
    intro st step h
    simp only [fsmLoop]
    split_ifs with hterm hbudget
    · exact h
    · exact h
    · have hlt : st.ctx.step_retry_count < max_step_retries := Nat.lt_of_not_le hbudget
      obtain ⟨hle, herr⟩ := execStep_count unquote e st step
      cases hres : (execStep unquote e st step).res with
      | ok next =>
        exact ih _ next (le_trans hle (Nat.succ_le_of_lt hlt))
      | error u =>
        apply ih
        have : (execStep unquote e st step).st.ctx.step_retry_count
            = st.ctx.step_retry_count := herr (by rw [hres])
        simp only [this]
        exact Nat.succ_le_of_lt hlt

theorem fsmLoop_exhausted (unquote : String → String) (max_step_retries : Nat)
    (e : StepEnv) (rest : List StepEnv) (st : FsmState) (step : AuthStep)
    (h1 : step ≠ .SUCCESS) (h2 : step ≠ .FAILED)
    (h3 : max_step_retries ≤ st.ctx.step_retry_count) :
    fsmLoop unquote max_step_retries (e :: rest) st step = (st, .FAILED) := by
  simp [fsmLoop, h1, h2, h3]


/-! ### Concrete FSM traces -/

/-- C1 (counterexample): after three iterations the flow sits at
`PERFORM_LOGIN` with retry counter 1; the next iteration classifies the
response as a cipher error and the orchestrator advances to the *different*
state `FETCH_PUBLIC_KEY` while the counter remains 1 — it is not reset to
zero on this state change. -/
theorem claim_C1_counterexample :
    (fsmLoop id 3 traceToLoginRetry fsmInit .FETCH_PUBLIC_KEY).2 = .PERFORM_LOGIN ∧
    (fsmLoop id 3 traceToLoginRetry fsmInit .FETCH_PUBLIC_KEY).1.ctx.step_retry_count = 1 ∧
    (fsmLoop id 3 traceCipherBack fsmInit .FETCH_PUBLIC_KEY).2 = .FETCH_PUBLIC_KEY ∧
    (fsmLoop id 3 traceCipherBack fsmInit .FETCH_PUBLIC_KEY).1.ctx.step_retry_count = 1 := by
  refine ⟨by decide, by decide, by decide, by decide⟩

/-- C1 (amended): the per-state retry counter is bounded — it never exceeds
`max_step_retries` along any run, and once it has reached the maximum at a
non-terminal state the loop transitions to `FAILED` without executing the
step again.  (The counter is *not* reset on every state change; the
failure-driven transitions carry it over, as the counterexample shows.) -/
theorem claim_C1_retry_budget (unquote : String → String)
    (max_step_retries : Nat) (envs : List StepEnv) (st : FsmState)
    (step : AuthStep) (hcount : st.ctx.step_retry_count ≤ max_step_retries) :
    (fsmLoop unquote max_step_retries envs st step).1.ctx.step_retry_count
      ≤ max_step_retries ∧
    (∀ (e : StepEnv) (rest : List StepEnv),
      step ≠ .SUCCESS → step ≠ .FAILED →
      max_step_retries ≤ st.ctx.step_retry_count →
      fsmLoop unquote max_step_retries (e :: rest) st step = (st, .FAILED)) :=
  ⟨fsmLoop_count_le unquote max_step_retries envs st step hcount,
   fun e rest h1 h2 h3 =>
     fsmLoop_exhausted unquote max_step_retries e rest st step h1 h2 h3⟩

/-- Witness for C1 at a concrete trace and an exhausted state. -/
theorem claim_C1_retry_budget_witness :
    ((fsmLoop id 3 traceCipherBack fsmExhausted .PERFORM_LOGIN).1.ctx.step_retry_count
        ≤ 3 ∧
      (∀ (e : StepEnv) (rest : List StepEnv),
        AuthStep.PERFORM_LOGIN ≠ AuthStep.SUCCESS →
        AuthStep.PERFORM_LOGIN ≠ AuthStep.FAILED →
        3 ≤ fsmExhausted.ctx.step_retry_count →
        fsmLoop id 3 (e :: rest) fsmExhausted .PERFORM_LOGIN
          = (fsmExhausted, .FAILED))) :=
  claim_C1_retry_budget id 3 traceCipherBack fsmExhausted .PERFORM_LOGIN (by decide)


/-! ### `login` error propagation -/

theorem prepare_fingerprint_ok (explicit_fingerprint : Option String)
    (env : ManagerEnv) (h1 : env.saveFpExplicitR.isRet = true)
    (h2 : env.loadFpR.isRet = true) (h3 : env.saveFpGeneratedR.isRet = true) :
    prepare_fingerprint explicit_fingerprint env = .ok () := by
  cases hs1 : env.saveFpExplicitR with
  | exn => rw [hs1] at h1; exact absurd h1 (by simp [CallRes.isRet])
  | ret u1 =>
    cases hs2 : env.loadFpR with
    | exn => rw [hs2] at h2; exact absurd h2 (by simp [CallRes.isRet])
    | ret stored =>
      cases hs3 : env.saveFpGeneratedR with
      | exn => rw [hs3] at h3; exact absurd h3 (by simp [CallRes.isRet])
      | ret u3 =>
        unfold prepare_fingerprint
        rw [hs1, hs2, hs3]
        simp only
        split_ifs <;> rfl

theorem try_resume_session_ok (env : ManagerEnv)
    (h4 : env.loadTgtR.isRet = true) :
    ∃ v, try_resume_session env = .ok v := by
  cases hl : env.loadTgtR with
  | exn => rw [hl] at h4; exact absurd h4 (by simp [CallRes.isRet])
  | ret tgt =>
    unfold try_resume_session
    rw [hl]
    simp only
    split_ifs with ht
    · exact ⟨(false, none), rfl⟩
    · cases hv : env.verifyTgtR with
      | exn => exact ⟨(false, none), rfl⟩
      | ret data =>
        rcases hp : parse_verify_tgt_resp data with ⟨valid, ru⟩
        cases valid
        · exact ⟨(false, none), by simp [hp]⟩
        · exact ⟨(true, ru), by simp [hp]⟩

theorem try_resume_session_no_token (env : ManagerEnv)
    (h : env.loadTgtR = .ret none) :
    try_resume_session env = .ok (false, none) := by
  unfold try_resume_session
  rw [h]
  rfl

/-- C2 (amended): as long as the collaborator calls made before the FSM
starts (fingerprint save/load, stored-token load) return normally, `login`
returns normally for *every* behaviour of the remaining collaborators —
exceptions inside FSM steps are caught — and when no session can be resumed
and the FSM does not reach `SUCCESS` (in particular when every step's budget
is exhausted by exceptions), the caller receives the absence signal
`(None, None)`. -/
theorem claim_C2_login_no_throw (unquote : String → String)
    (max_step_retries : Nat) (explicit_fingerprint : Option String)
    (env : ManagerEnv) (username password : String) (force_refresh : Bool)
    (service : String)
    (h1 : env.saveFpExplicitR.isRet = true) (h2 : env.loadFpR.isRet = true)
    (h3 : env.saveFpGeneratedR.isRet = true) (h4 : env.loadTgtR.isRet = true) :
    (∃ v, login unquote max_step_retries explicit_fingerprint env
        username password force_refresh service = .ok v) ∧
    (env.loadTgtR = .ret none →
      (execute_login_fsm unquote max_step_retries env.fsmEnvs
          username password service none).2 ≠ .SUCCESS →
      login unquote max_step_retries explicit_fingerprint env
        username password force_refresh service = .ok none) := by
  have hprep := prepare_fingerprint_ok explicit_fingerprint env h1 h2 h3
  constructor
  · unfold login
    rw [hprep]
    simp only
    cases force_refresh with
    | true =>
      simp only [if_true]
      split_ifs <;> exact ⟨_, rfl⟩
    | false =>
      simp only [Bool.false_eq_true, if_false]
      obtain ⟨v, hres⟩ := try_resume_session_ok env h4
      rw [hres]
      rcases v with ⟨b, r⟩
      cases b
      · simp only
        split_ifs <;> exact ⟨_, rfl⟩
      · exact ⟨some r, rfl⟩
  · intro hload hfsm
    have hres := try_resume_session_no_token env hload
    unfold login
    rw [hprep]
    simp only
    cases force_refresh with
    | true =>
      simp only [if_true]
      rw [if_neg hfsm]
    | false =>
      simp only [Bool.false_eq_true, if_false]
      rw [hres]
      simp only
      rw [if_neg hfsm]

/-- C2 (counterexample): a storage collaborator whose `load_fingerprint`
raises makes `login` itself raise — the fingerprint-preparation calls run
outside the step loop's `try`, so this exception reaches the caller. -/
theorem claim_C2_counterexample :
    login id 3 none envLoadFpRaises "213200001" "pw" false "" = .error () := rfl

/-- Witness for C2 at an environment whose every FSM transport call raises. -/
theorem claim_C2_login_no_throw_witness :
    ((∃ v, login id 3 none envAllStepsRaise "213200001" "pw" false "" = .ok v) ∧
      (envAllStepsRaise.loadTgtR = .ret none →
        (execute_login_fsm id 3 envAllStepsRaise.fsmEnvs
            "213200001" "pw" "" none).2 ≠ .SUCCESS →
        login id 3 none envAllStepsRaise "213200001" "pw" false "" = .ok none)) :=
  claim_C2_login_no_throw id 3 none envAllStepsRaise "213200001" "pw" false ""
    rfl rfl rfl rfl


/-- Witness for C7 with the identity in place of the URL-decoding oracle. -/
theorem claim_C7_empty_payload_conservative_witness :
    parse_cas_login_resp id emptyResp = (.FAILED, 0, none, none) :=
  claim_C7_empty_payload_conservative.1 id

end SeuAuth
